import Mathlib

/-!
Shallow embedding of the TagBlaze server (Rust, axum + sea-orm) and proofs
about its authentication, authorization and CRUD contracts.

Sources embedded:
  - src/server/src/utils/jwt.rs        (create_jwt, extract_claims)
  - src/server/src/utils/auth.rs       (extract_claims over a request)
  - src/server/src/handlers/auth.rs    (register_user, login_user, me)
  - src/server/src/routes/ticket.rs    (the ticket handlers mounted by create_router)
  - src/server/src/handlers/ticket.rs  (duplicate update handler with timestamp refresh)
  - src/server/src/handlers/relations.rs (attach_tag)

External crates (jsonwebtoken, bcrypt) and the sea-orm models/migrations are
not part of src/; their behaviour is modelled from the spec where marked.
Clock and configuration (JWT secret) are injected explicitly.
-/

namespace TagBlaze

/-- HTTP status codes used by the handlers (axum `StatusCode`). -/
inductive StatusCode where
  | OK
  | CREATED
  | NO_CONTENT
  | BAD_REQUEST
  | UNAUTHORIZED
  | FORBIDDEN
  | NOT_FOUND
  | CONFLICT
  | INTERNAL_SERVER_ERROR
deriving Repr, DecidableEq

/-- Numeric value of each status code. -/
def StatusCode.code : StatusCode → Nat
  | .OK => 200
  | .CREATED => 201
  | .NO_CONTENT => 204
  | .BAD_REQUEST => 400
  | .UNAUTHORIZED => 401
  | .FORBIDDEN => 403
  | .NOT_FOUND => 404
  | .CONFLICT => 409
  | .INTERNAL_SERVER_ERROR => 500

/-- JWT payload, from utils/jwt.rs: subject and expiration timestamp
(seconds since epoch). -/
structure Claims where
  sub : String
  exp : Nat
deriving Repr, DecidableEq

/-- Modelled from the spec: the wire form of a JWT handled by the external
`jsonwebtoken` crate (not in src/). A token string either is a structurally
well-formed token signed with some secret, or is garbage (malformed). -/
inductive Token where
  | signed (claims : Claims) (secret : String)
  | garbage (raw : String)
deriving Repr, DecidableEq

/-- utils/jwt.rs `create_jwt`: issues a token for `sub` whose expiration is
24 hours after `now`, signed with `secret` (signing modelled from the spec,
the `encode` call lives in the external crate). -/
def create_jwt (sub : String) (secret : String) (now : Nat) : Token :=
  Token.signed { sub := sub, exp := now + 24 * 3600 } secret

/-- Modelled from the spec: `jsonwebtoken::decode` with default validation
(not in src/). Succeeds only on a structurally well-formed token whose
signature matches `secret` and whose expiration lies strictly in the future;
every failure collapses to the single `UNAUTHORIZED` error, exactly as both
call sites map it (utils/jwt.rs line 77, utils/auth.rs line 49). -/
def jwt_decode (token : Token) (secret : String) (now : Nat) :
    Except StatusCode Claims :=
  match token with
  | .garbage _ => .error .UNAUTHORIZED
  | .signed c sec =>
      if sec = secret ∧ now < c.exp then .ok c else .error .UNAUTHORIZED

namespace UtilsJwt

/-- utils/jwt.rs `extract_claims`: decode and validate a bare token, any
failure mapped to `UNAUTHORIZED` (secret is read from the environment in the
source; injected here). -/
def extract_claims (token : Token) (secret : String) (now : Nat) :
    Except StatusCode Claims :=
  jwt_decode token secret now

end UtilsJwt

/-- Value of an HTTP header. Modelled from the spec: every header string
either consists of the literal case-sensitive prefix "Bearer " followed by a
token, or does not start with that prefix (`other`, e.g. "Basic xyz"). -/
inductive HeaderValue where
  | bearer (tok : Token)
  | other (raw : String)
deriving Repr, DecidableEq

/-- An inbound HTTP request as seen by the guard: its header map. -/
structure Request where
  headers : List (String × HeaderValue)
deriving Repr, DecidableEq

namespace UtilsAuth

/-- utils/auth.rs `extract_claims`: read the Authorization header, require
the literal prefix "Bearer ", then decode the remainder; each failing step
returns `UNAUTHORIZED`. -/
def extract_claims (req : Request) (secret : String) (now : Nat) :
    Except StatusCode Claims :=
  match (req.headers.find? (fun h => h.1 == "Authorization")).map (·.2) with
  | none => .error .UNAUTHORIZED
  | some hv =>
      match hv with
      | .other _ => .error .UNAUTHORIZED
      | .bearer tok => jwt_decode tok secret now

end UtilsAuth

/-- Modelled from the spec: a bcrypt digest (external `bcrypt` crate, not in
src/) records its cost factor, its salt, and the derived key of the
plaintext under that cost and salt. -/
structure BcryptDigest where
  cost : Nat
  salt : Nat
  key : Nat
deriving Repr, DecidableEq

/-- Modelled from the spec: the bcrypt key-derivation function, abstracted
to a concrete deterministic mixing of plaintext, cost and salt. -/
def bcryptKdf (plaintext : String) (cost salt : Nat) : Nat :=
  plaintext.length + 1000003 * salt + 31 * cost + plaintext.foldl
    (fun acc c => acc * 131 + c.toNat) 7

/-- Modelled from the spec: `bcrypt::hash(plaintext, cost)` with the freshly
drawn random `salt` made explicit. -/
def bcrypt_hash (plaintext : String) (cost salt : Nat) : BcryptDigest :=
  { cost := cost, salt := salt, key := bcryptKdf plaintext cost salt }

/-- Modelled from the spec: verification against a well-formed digest
recomputes the derived key with the digest's own cost and salt. -/
def bcrypt_verify_digest (plaintext : String) (d : BcryptDigest) : Bool :=
  d.key == bcryptKdf plaintext d.cost d.salt

/-- The stored `password` column is a string; it either parses as a bcrypt
digest or is malformed. -/
inductive StoredPassword where
  | digest (d : BcryptDigest)
  | malformed (raw : String)
deriving Repr, DecidableEq

/-- Modelled from the spec: `bcrypt::verify(plaintext, stored)` returns
`Err` on a digest that does not parse, otherwise the boolean comparison. -/
def bcrypt_verify (plaintext : String) (sp : StoredPassword) :
    Except Unit Bool :=
  match sp with
  | .digest d => .ok (bcrypt_verify_digest plaintext d)
  | .malformed _ => .error ()

/-- User row (sea-orm model is not in src/; fields as used by the handlers
and described by the spec data model). -/
structure User where
  id : Int
  email : String
  name : String
  password : StoredPassword
  role : String
  created_at : Option Nat
deriving Repr, DecidableEq

/-- Ticket row (fields as used by the handlers and the spec data model). -/
structure Ticket where
  id : Int
  title : String
  description : Option String
  status : Option String
  user_id : Option Int
  created_at : Option Nat
  updated_at : Option Nat
deriving Repr, DecidableEq

/-- The persisted state: users, tickets, and ticket-tag join rows. -/
structure Db where
  users : List User
  tickets : List Ticket
  ticket_tags : List (Int × Int)
deriving Repr, DecidableEq

/-- Look a user up by email (`user::Entity::find().filter(Email.eq(..))`). -/
def Db.findUserByEmail (db : Db) (email : String) : Option User :=
  db.users.find? (fun u => u.email == email)

/-- Look a ticket up by primary key (`ticket::Entity::find_by_id`). -/
def Db.findTicketById (db : Db) (id : Int) : Option Ticket :=
  db.tickets.find? (fun t => t.id == id)

/-- routes/auth.rs `RegisterRequest`. -/
structure RegisterRequest where
  email : String
  name : String
  password : String
  role : String
deriving Repr, DecidableEq

/-- Outcome of handlers/auth.rs `register_user`: a status code paired with
the JSON message body. -/
structure RegisterResult where
  status : StatusCode
  body : String
deriving Repr, DecidableEq

/-- handlers/auth.rs `register_user`: hash the password, build the new row
with the request's fields verbatim, insert, and report. The insert succeeds
unless the unique-email constraint is violated (the schema is not in src/;
uniqueness of email is the only row constraint the spec states). The salt
drawn by bcrypt and the fresh primary key are injected. -/
def register_user (db : Db) (payload : RegisterRequest)
    (salt : Nat) (now : Nat) (fresh_id : Int) : RegisterResult × Db :=
  let password_hash := bcrypt_hash payload.password 12 salt
  let new_user : User :=
    { id := fresh_id
      email := payload.email
      name := payload.name
      password := .digest password_hash
      role := payload.role
      created_at := some now }
  if db.users.any (fun u => u.email == payload.email) then
    ({ status := .INTERNAL_SERVER_ERROR, body := "❌ Could not register user." }, db)
  else
    ({ status := .CREATED, body := "🎉 User registered successfully!" },
     { db with users := db.users ++ [new_user] })

/-- Outcome of handlers/auth.rs `login_user`. The `panicked` constructor
records the `.unwrap()` on the result of `bcrypt::verify` aborting the
handler when verification itself errors. -/
inductive LoginResult where
  | ok (token : Token)
  | err (s : StatusCode)
  | panicked
deriving Repr, DecidableEq

/-- handlers/auth.rs `login_user`: find the user by email, verify the
password with `verify(payload.password, &user.password).unwrap()`, and on
success issue a JWT for the user's email; otherwise 401. -/
def login_user (db : Db) (email password : String)
    (secret : String) (now : Nat) : LoginResult :=
  match db.findUserByEmail email with
  | some user =>
      match bcrypt_verify password user.password with
      | .error _ => .panicked
      | .ok valid =>
          if valid then .ok (create_jwt user.email secret now)
          else .err .UNAUTHORIZED
  | none => .err .UNAUTHORIZED

/-- handlers/auth.rs `me`: returns `Json<String>` in both branches, hence
always HTTP 200 with a string body. -/
def me (req : Request) (secret : String) (now : Nat) : Nat × String :=
  match UtilsAuth.extract_claims req secret now with
  | .ok claims => (200, "👤 Logged in as: " ++ claims.sub)
  | .error _ => (200, "❌ Invalid token")

/-- routes/ticket.rs `UpdateTicket` payload (all fields optional). -/
structure UpdateTicket where
  title : Option String
  description : Option String
  status : Option String
deriving Repr, DecidableEq

/-- A handler response: a JSON ticket, a JSON ticket list, or a bare
status code. -/
inductive Response where
  | ticketJson (t : Ticket)
  | ticketsJson (ts : List Ticket)
  | status (s : StatusCode)
deriving Repr, DecidableEq

namespace RoutesTicket

/-- routes/ticket.rs `get_tickets`: admins receive every ticket, other
callers only the tickets whose `user_id` equals their id. -/
def get_tickets (db : Db) (bearer : Token) (secret : String) (now : Nat) :
    Response :=
  match UtilsJwt.extract_claims bearer secret now with
  | .error _ => .status .UNAUTHORIZED
  | .ok claims =>
      match db.findUserByEmail claims.sub with
      | none => .status .UNAUTHORIZED
      | some user =>
          if user.role == "admin" then .ticketsJson db.tickets
          else .ticketsJson
            (db.tickets.filter (fun t => t.user_id == some user.id))

/-- routes/ticket.rs `get_ticket_by_id`: claims, then the ticket (404 if
absent), then the user, then the owner-or-admin check. -/
def get_ticket_by_id (db : Db) (ticket_id : Int) (bearer : Token)
    (secret : String) (now : Nat) : Response :=
  match UtilsJwt.extract_claims bearer secret now with
  | .error _ => .status .UNAUTHORIZED
  | .ok claims =>
      match db.findTicketById ticket_id with
      | none => .status .NOT_FOUND
      | some tk =>
          match db.findUserByEmail claims.sub with
          | none => .status .UNAUTHORIZED
          | some user =>
              if user.role ≠ "admin" ∧ some user.id ≠ tk.user_id then
                .status .FORBIDDEN
              else .ticketJson tk

/-- routes/ticket.rs `delete_ticket_by_id`: claims, then the user, then the
ticket, then the owner-or-admin check, then deletion by primary key. -/
def delete_ticket_by_id (db : Db) (ticket_id : Int) (bearer : Token)
    (secret : String) (now : Nat) : Response × Db :=
  match UtilsJwt.extract_claims bearer secret now with
  | .error _ => (.status .UNAUTHORIZED, db)
  | .ok claims =>
      match db.findUserByEmail claims.sub with
      | none => (.status .UNAUTHORIZED, db)
      | some user =>
          match db.findTicketById ticket_id with
          | none => (.status .NOT_FOUND, db)
          | some tk =>
              if user.role ≠ "admin" ∧ tk.user_id ≠ some user.id then
                (.status .FORBIDDEN, db)
              else
                (.status .NO_CONTENT,
                 { db with
                     tickets := db.tickets.filter (fun t => ¬ t.id == tk.id) })

/-- routes/ticket.rs `update_ticket_by_id`: claims, user, ticket,
owner-or-admin check, then a PATCH-style update of the fields present in
the payload. This version sets no timestamp: `updated_at` keeps its stored
value. -/
def update_ticket_by_id (db : Db) (ticket_id : Int) (bearer : Token)
    (payload : UpdateTicket) (secret : String) (now : Nat) : Response × Db :=
  match UtilsJwt.extract_claims bearer secret now with
  | .error _ => (.status .UNAUTHORIZED, db)
  | .ok claims =>
      match db.findUserByEmail claims.sub with
      | none => (.status .UNAUTHORIZED, db)
      | some user =>
          match db.findTicketById ticket_id with
          | none => (.status .NOT_FOUND, db)
          | some tk =>
              if user.role ≠ "admin" ∧ tk.user_id ≠ some user.id then
                (.status .FORBIDDEN, db)
              else
                let tk1 := match payload.title with
                  | some t => { tk with title := t }
                  | none => tk
                let tk2 := match payload.description with
                  | some d => { tk1 with description := some d }
                  | none => tk1
                let tk3 := match payload.status with
                  | some s => { tk2 with status := some s }
                  | none => tk2
                (.ticketJson tk3,
                 { db with
                     tickets := db.tickets.map
                       (fun t => if t.id == tk.id then tk3 else t) })

end RoutesTicket

namespace HandlersTicket

/-- handlers/ticket.rs `update_ticket_by_id`: identical to the routes/
version except that it refreshes `updated_at` to the current time before
persisting. -/
def update_ticket_by_id (db : Db) (ticket_id : Int) (bearer : Token)
    (payload : UpdateTicket) (secret : String) (now : Nat) : Response × Db :=
  match UtilsJwt.extract_claims bearer secret now with
  | .error _ => (.status .UNAUTHORIZED, db)
  | .ok claims =>
      match db.findUserByEmail claims.sub with
      | none => (.status .UNAUTHORIZED, db)
      | some user =>
          match db.findTicketById ticket_id with
          | none => (.status .NOT_FOUND, db)
          | some tk =>
              if user.role ≠ "admin" ∧ tk.user_id ≠ some user.id then
                (.status .FORBIDDEN, db)
              else
                let tk1 := match payload.title with
                  | some t => { tk with title := t }
                  | none => tk
                let tk2 := match payload.description with
                  | some d => { tk1 with description := some d }
                  | none => tk1
                let tk3 := match payload.status with
                  | some s => { tk2 with status := some s }
                  | none => tk2
                let tk4 := { tk3 with updated_at := some now }
                (.ticketJson tk4,
                 { db with
                     tickets := db.tickets.map
                       (fun t => if t.id == tk.id then tk4 else t) })

end HandlersTicket

/-- handlers/relations.rs `attach_tag`: authenticate, then insert the
(ticket_id, tag_id) join row. The insert fails exactly when the pair
already exists (modelled from the spec: the uniqueness constraint on the
pair lives in the schema, which is not in src/), and an insert failure is
reported as CONFLICT. -/
def attach_tag (db : Db) (ticket_id tag_id : Int) (bearer : Token)
    (secret : String) (now : Nat) : StatusCode × Db :=
  match UtilsJwt.extract_claims bearer secret now with
  | .error _ => (.UNAUTHORIZED, db)
  | .ok _ =>
      if (ticket_id, tag_id) ∈ db.ticket_tags then (.CONFLICT, db)
      else (.CREATED, { db with ticket_tags := (ticket_id, tag_id) :: db.ticket_tags })

/-! Theorems. -/

/-- Every failure of the modelled `jsonwebtoken::decode` is the single
`UNAUTHORIZED` error. -/
theorem jwt_decode_error_unique (tok : Token) (secret : String) (now : Nat)
    (e : StatusCode) (h : jwt_decode tok secret now = .error e) :
    e = .UNAUTHORIZED := by
  rcases tok with ⟨c, sec⟩ | raw
  · simp only [jwt_decode] at h
    split at h
    · cases h
    · injection h with h'
      exact h'.symm
  · simp only [jwt_decode] at h
    injection h with h'
    exact h'.symm

/-- C3: for every subject `s`, validating a token immediately after it is
issued for `s` succeeds with the claims' subject equal to `s`; the issued
token's expiration is 24 hours (86400 seconds) after issuance; once that
expiration instant has passed, validation fails. -/
theorem jwt_issue_validate_roundtrip (s secret : String) (now t : Nat)
    (hpast : now + 24 * 3600 ≤ t) :
    create_jwt s secret now =
      Token.signed { sub := s, exp := now + 24 * 3600 } secret ∧
    UtilsJwt.extract_claims (create_jwt s secret now) secret now =
      .ok { sub := s, exp := now + 24 * 3600 } ∧
    UtilsJwt.extract_claims (create_jwt s secret now) secret t =
      .error .UNAUTHORIZED := by
  refine ⟨rfl, ?_, ?_⟩
  · simp [UtilsJwt.extract_claims, jwt_decode, create_jwt]
  · simp [UtilsJwt.extract_claims, jwt_decode, create_jwt]
    omega

/-- Witness for C3 at a concrete subject, secret and clock. -/
theorem jwt_issue_validate_roundtrip_witness :
    (5 : Nat) + 24 * 3600 ≤ 90000 ∧
    (create_jwt "a@x.com" "shh" 5 =
      Token.signed { sub := "a@x.com", exp := 5 + 24 * 3600 } "shh" ∧
    UtilsJwt.extract_claims (create_jwt "a@x.com" "shh" 5) "shh" 5 =
      .ok { sub := "a@x.com", exp := 5 + 24 * 3600 } ∧
    UtilsJwt.extract_claims (create_jwt "a@x.com" "shh" 5) "shh" 90000 =
      .error .UNAUTHORIZED) :=
  ⟨by omega, jwt_issue_validate_roundtrip "a@x.com" "shh" 5 90000 (by omega)⟩

/-- C2: authentication fails with the single `UNAUTHORIZED` (HTTP 401)
error whenever the Authorization header is missing, whenever its value does
not carry the exact "Bearer " scheme, and whenever the token is garbage,
signed with a different secret, or expired; every failure of the guard is
that one error, so the response never reveals which cause occurred. -/
theorem auth_failures_collapse_to_unauthorized (req : Request)
    (secret : String) (now : Nat) :
    StatusCode.UNAUTHORIZED.code = 401 ∧
    (req.headers.find? (fun h => h.1 == "Authorization") = none →
      UtilsAuth.extract_claims req secret now = .error .UNAUTHORIZED) ∧
    (∀ nm raw, req.headers.find? (fun h => h.1 == "Authorization") =
        some (nm, .other raw) →
      UtilsAuth.extract_claims req secret now = .error .UNAUTHORIZED) ∧
    (∀ raw, jwt_decode (.garbage raw) secret now = .error .UNAUTHORIZED) ∧
    (∀ c sec, sec ≠ secret →
      jwt_decode (.signed c sec) secret now = .error .UNAUTHORIZED) ∧
    (∀ c sec, c.exp ≤ now →
      jwt_decode (.signed c sec) secret now = .error .UNAUTHORIZED) ∧
    (∀ e, UtilsAuth.extract_claims req secret now = .error e →
      e = .UNAUTHORIZED) ∧
    (∀ tok e, UtilsJwt.extract_claims tok secret now = .error e →
      e = .UNAUTHORIZED) := by
  refine ⟨rfl, ?_, ?_, ?_, ?_, ?_, ?_, ?_⟩
  · intro h
    simp [UtilsAuth.extract_claims, h]
  · intro nm raw h
    simp [UtilsAuth.extract_claims, h]
  · intro raw
    simp [jwt_decode]
  · intro c sec hne
    simp [jwt_decode, hne]
  · intro c sec hexp
    simp [jwt_decode]
    omega
  · intro e h
    unfold UtilsAuth.extract_claims at h
    rcases hf : (req.headers.find? (fun h => h.1 == "Authorization")) with _ | ⟨nm, hv⟩
    · rw [hf] at h
      have h2 : (Except.error StatusCode.UNAUTHORIZED : Except StatusCode Claims) =
          .error e := h
      injection h2 with h'
      exact h'.symm
    · rw [hf] at h
      rcases hv with tok | raw
      · exact jwt_decode_error_unique tok secret now e h
      · have h2 : (Except.error StatusCode.UNAUTHORIZED : Except StatusCode Claims) =
            .error e := h
        injection h2 with h'
        exact h'.symm
  · intro tok e h
    exact jwt_decode_error_unique tok secret now e h

/-- Witness for C2: a request carrying "Basic xyz", evaluated concretely. -/
theorem auth_failures_collapse_to_unauthorized_witness :
    (Request.mk [("Authorization", .other "Basic xyz")]).headers.find?
        (fun h => h.1 == "Authorization") =
      some ("Authorization", .other "Basic xyz") ∧
    UtilsAuth.extract_claims
        (Request.mk [("Authorization", .other "Basic xyz")]) "shh" 0 =
      .error .UNAUTHORIZED :=
  ⟨by rfl,
   (auth_failures_collapse_to_unauthorized
      (Request.mk [("Authorization", .other "Basic xyz")]) "shh" 0).2.2.1
     "Authorization" "Basic xyz" (by rfl)⟩

/-- C10: GET /auth/me always responds with HTTP 200: with a valid bearer
token the body carries the token's subject, and on any authentication
failure the body is the string "❌ Invalid token"; it is never a 401. -/
theorem me_always_responds_200 (req : Request) (secret : String) (now : Nat) :
    (me req secret now).1 = 200 ∧
    (∀ claims, UtilsAuth.extract_claims req secret now = .ok claims →
      (me req secret now).2 = "👤 Logged in as: " ++ claims.sub) ∧
    (∀ e, UtilsAuth.extract_claims req secret now = .error e →
      (me req secret now).2 = "❌ Invalid token") := by
  refine ⟨?_, ?_, ?_⟩
  · unfold me
    rcases h : UtilsAuth.extract_claims req secret now with e | claims <;> simp [h]
  · intro claims h
    simp [me, h]
  · intro e h
    simp [me, h]

/-- Witness for C10 at a request with no Authorization header. -/
theorem me_always_responds_200_witness :
    UtilsAuth.extract_claims (Request.mk []) "shh" 0 =
      .error .UNAUTHORIZED ∧
    (me (Request.mk []) "shh" 0).2 = "❌ Invalid token" ∧
    (me (Request.mk []) "shh" 0).1 = 200 :=
  ⟨by rfl,
   (me_always_responds_200 (Request.mk []) "shh" 0).2.2 .UNAUTHORIZED (by rfl),
   (me_always_responds_200 (Request.mk []) "shh" 0).1⟩

/-- C8: for every plaintext, verifying against its own hash succeeds, and
hashing the same plaintext under two distinct salts yields two distinct
digests that both verify. -/
theorem bcrypt_hash_verify_roundtrip (p : String) (cost s1 s2 : Nat)
    (hne : s1 ≠ s2) :
    bcrypt_verify_digest p (bcrypt_hash p cost s1) = true ∧
    bcrypt_verify_digest p (bcrypt_hash p cost s2) = true ∧
    bcrypt_hash p cost s1 ≠ bcrypt_hash p cost s2 := by
  refine ⟨?_, ?_, ?_⟩
  · simp [bcrypt_verify_digest, bcrypt_hash]
  · simp [bcrypt_verify_digest, bcrypt_hash]
  · intro h
    exact hne (congrArg BcryptDigest.salt h)

/-- Witness for C8 at a concrete plaintext and two concrete salts. -/
theorem bcrypt_hash_verify_roundtrip_witness :
    (3 : Nat) ≠ 4 ∧
    (bcrypt_verify_digest "pw123" (bcrypt_hash "pw123" 12 3) = true ∧
     bcrypt_verify_digest "pw123" (bcrypt_hash "pw123" 12 4) = true ∧
     bcrypt_hash "pw123" 12 3 ≠ bcrypt_hash "pw123" 12 4) :=
  ⟨by decide, bcrypt_hash_verify_roundtrip "pw123" 12 3 4 (by decide)⟩

/-- C9 (code bug): logging in against a stored user whose password digest
is malformed reaches `verify(..).unwrap()` on an `Err`, i.e. the handler
panics instead of treating the digest as non-matching. Evaluated at the
concrete failing input. -/
theorem login_panics_on_malformed_digest :
    login_user
      { users := [{ id := 1, email := "a@x.com", name := "A",
                    password := .malformed "not-a-bcrypt-digest",
                    role := "agent", created_at := none }],
        tickets := [], ticket_tags := [] }
      "a@x.com" "pw123" "shh" 0 = .panicked := by
  rfl

/-- C7: an authenticated attach of an already-linked (ticket_id, tag_id)
pair answers CONFLICT and leaves the state unchanged, and attaching
preserves the at-most-one-relation-per-pair invariant. -/
theorem attach_tag_conflict_on_duplicate (db : Db) (ticket_id tag_id : Int)
    (bearer : Token) (secret : String) (now : Nat) :
    (∀ claims, UtilsJwt.extract_claims bearer secret now = .ok claims →
      (ticket_id, tag_id) ∈ db.ticket_tags →
      attach_tag db ticket_id tag_id bearer secret now = (.CONFLICT, db)) ∧
    (db.ticket_tags.Nodup →
      ((attach_tag db ticket_id tag_id bearer secret now).2).ticket_tags.Nodup) := by
  constructor
  · intro claims hok hmem
    simp [attach_tag, hok, hmem]
  · intro hnd
    rcases h : UtilsJwt.extract_claims bearer secret now with e | claims
    · simpa [attach_tag, h] using hnd
    · by_cases hmem : (ticket_id, tag_id) ∈ db.ticket_tags
      · simpa [attach_tag, h, hmem] using hnd
      · simpa [attach_tag, h, hmem, List.nodup_cons] using
          And.intro hmem hnd

/-- Witness for C7: a concrete state already containing the pair (1, 2). -/
theorem attach_tag_conflict_on_duplicate_witness :
    UtilsJwt.extract_claims (Token.signed ⟨"a@x.com", 10⟩ "shh") "shh" 0 =
      .ok ⟨"a@x.com", 10⟩ ∧
    ((1, 2) : Int × Int) ∈ [((1, 2) : Int × Int)] ∧
    attach_tag { users := [], tickets := [], ticket_tags := [(1, 2)] } 1 2
        (Token.signed ⟨"a@x.com", 10⟩ "shh") "shh" 0 =
      (.CONFLICT, { users := [], tickets := [], ticket_tags := [(1, 2)] }) :=
  ⟨by rfl, by simp,
   (attach_tag_conflict_on_duplicate
      { users := [], tickets := [], ticket_tags := [(1, 2)] } 1 2
      (Token.signed ⟨"a@x.com", 10⟩ "shh") "shh" 0).1
     ⟨"a@x.com", 10⟩ (by rfl) (by simp)⟩

/-- C1: with an authenticated caller and an existing ticket, the read,
update and delete handlers pass the authorization check exactly when the
caller's role is "admin" or the ticket's owner is the caller, and answer
FORBIDDEN otherwise; an ownerless ticket is readable only by admins. -/
theorem ticket_rud_authz_owner_or_admin (db : Db) (ticket_id : Int)
    (bearer : Token) (payload : UpdateTicket) (secret : String) (now : Nat)
    (claims : Claims) (user : User) (tk : Ticket)
    (hauth : UtilsJwt.extract_claims bearer secret now = .ok claims)
    (huser : db.findUserByEmail claims.sub = some user)
    (htk : db.findTicketById ticket_id = some tk) :
    (RoutesTicket.get_ticket_by_id db ticket_id bearer secret now =
      (if user.role = "admin" ∨ tk.user_id = some user.id then
        Response.ticketJson tk else Response.status .FORBIDDEN)) ∧
    ((RoutesTicket.update_ticket_by_id db ticket_id bearer payload secret now).1 =
        Response.status .FORBIDDEN ↔
      ¬ (user.role = "admin" ∨ tk.user_id = some user.id)) ∧
    ((RoutesTicket.delete_ticket_by_id db ticket_id bearer secret now).1 =
        Response.status .FORBIDDEN ↔
      ¬ (user.role = "admin" ∨ tk.user_id = some user.id)) ∧
    (tk.user_id = none →
      (RoutesTicket.get_ticket_by_id db ticket_id bearer secret now =
          Response.ticketJson tk ↔ user.role = "admin")) := by
  by_cases hallow : user.role = "admin" ∨ tk.user_id = some user.id
  · have hget : RoutesTicket.get_ticket_by_id db ticket_id bearer secret now =
        Response.ticketJson tk := by
      rcases hallow with hrole | hown
      · simp [RoutesTicket.get_ticket_by_id, hauth, huser, htk, hrole]
      · simp [RoutesTicket.get_ticket_by_id, hauth, huser, htk, hown]
    refine ⟨by simp [hget, hallow], ?_, ?_, ?_⟩
    · rcases hallow with hrole | hown
      · simp [RoutesTicket.update_ticket_by_id, hauth, huser, htk, hrole]
      · simp [RoutesTicket.update_ticket_by_id, hauth, huser, htk, hown]
    · rcases hallow with hrole | hown
      · simp [RoutesTicket.delete_ticket_by_id, hauth, huser, htk, hrole]
      · simp [RoutesTicket.delete_ticket_by_id, hauth, huser, htk, hown]
    · intro hnone
      rcases hallow with hrole | hown
      · simp [hget, hrole]
      · rw [hown] at hnone
        cases hnone
  · push_neg at hallow
    obtain ⟨hrole, hown⟩ := hallow
    have hown' : some user.id ≠ tk.user_id := fun h => hown h.symm
    refine ⟨?_, ?_, ?_, ?_⟩
    · simp [RoutesTicket.get_ticket_by_id, hauth, huser, htk, hrole, hown, hown']
    · simp [RoutesTicket.update_ticket_by_id, hauth, huser, htk, hrole, hown]
    · simp [RoutesTicket.delete_ticket_by_id, hauth, huser, htk, hrole, hown]
    · intro _
      simp [RoutesTicket.get_ticket_by_id, hauth, huser, htk, hrole, hown, hown']

/-- Witness for C1: an agent who owns ticket 10, evaluated concretely. -/
theorem ticket_rud_authz_owner_or_admin_witness :
    (Db.mk [{ id := 1, email := "a@x.com", name := "A",
              password := .malformed "h", role := "agent",
              created_at := none }]
           [{ id := 10, title := "T", description := none,
              status := some "open", user_id := some 1,
              created_at := some 0, updated_at := some 0 }]
           []).findUserByEmail "a@x.com" =
      some { id := 1, email := "a@x.com", name := "A",
             password := .malformed "h", role := "agent",
             created_at := none } ∧
    (RoutesTicket.get_ticket_by_id
        (Db.mk [{ id := 1, email := "a@x.com", name := "A",
                  password := .malformed "h", role := "agent",
                  created_at := none }]
               [{ id := 10, title := "T", description := none,
                  status := some "open", user_id := some 1,
                  created_at := some 0, updated_at := some 0 }]
               [])
        10 (Token.signed ⟨"a@x.com", 10⟩ "shh") "shh" 0 =
      (if ({ id := 1, email := "a@x.com", name := "A",
             password := .malformed "h", role := "agent",
             created_at := none } : User).role = "admin" ∨
          ({ id := 10, title := "T", description := none,
             status := some "open", user_id := some 1,
             created_at := some 0, updated_at := some 0 } : Ticket).user_id =
            some ({ id := 1, email := "a@x.com", name := "A",
                    password := .malformed "h", role := "agent",
                    created_at := none } : User).id then
        Response.ticketJson
          { id := 10, title := "T", description := none,
            status := some "open", user_id := some 1,
            created_at := some 0, updated_at := some 0 }
      else Response.status .FORBIDDEN)) :=
  ⟨by rfl,
   (ticket_rud_authz_owner_or_admin
      (Db.mk [{ id := 1, email := "a@x.com", name := "A",
                password := .malformed "h", role := "agent",
                created_at := none }]
             [{ id := 10, title := "T", description := none,
                status := some "open", user_id := some 1,
                created_at := some 0, updated_at := some 0 }]
             [])
      10 (Token.signed ⟨"a@x.com", 10⟩ "shh")
      { title := none, description := none, status := none } "shh" 0
      ⟨"a@x.com", 10⟩
      { id := 1, email := "a@x.com", name := "A",
        password := .malformed "h", role := "agent", created_at := none }
      { id := 10, title := "T", description := none,
        status := some "open", user_id := some 1,
        created_at := some 0, updated_at := some 0 }
      (by rfl) (by rfl) (by rfl)).1⟩

/-- C4: listing tickets returns exactly the stored tickets for an admin
caller and exactly the caller-owned tickets otherwise. -/
theorem get_tickets_role_filtered (db : Db) (bearer : Token)
    (secret : String) (now : Nat) (claims : Claims) (user : User)
    (hauth : UtilsJwt.extract_claims bearer secret now = .ok claims)
    (huser : db.findUserByEmail claims.sub = some user) :
    ∃ L, RoutesTicket.get_tickets db bearer secret now =
        Response.ticketsJson L ∧
      ∀ t, t ∈ L ↔ t ∈ db.tickets ∧
        (user.role = "admin" ∨ t.user_id = some user.id) := by
  by_cases hrole : user.role = "admin"
  · refine ⟨db.tickets, ?_, ?_⟩
    · simp [RoutesTicket.get_tickets, hauth, huser, hrole]
    · intro t
      simp [hrole]
  · refine ⟨db.tickets.filter (fun t => t.user_id == some user.id), ?_, ?_⟩
    · simp [RoutesTicket.get_tickets, hauth, huser, hrole]
    · intro t
      simp [List.mem_filter, hrole]

/-- Witness for C4: a two-ticket store listed by a non-admin owner of the
first ticket. -/
theorem get_tickets_role_filtered_witness :
    (Db.mk [{ id := 1, email := "a@x.com", name := "A",
              password := .malformed "h", role := "agent",
              created_at := none }]
           [{ id := 10, title := "T1", description := none,
              status := some "open", user_id := some 1,
              created_at := none, updated_at := none },
            { id := 11, title := "T2", description := none,
              status := some "open", user_id := some 2,
              created_at := none, updated_at := none }]
           []).findUserByEmail "a@x.com" =
      some { id := 1, email := "a@x.com", name := "A",
             password := .malformed "h", role := "agent",
             created_at := none } ∧
    (∃ L, RoutesTicket.get_tickets
        (Db.mk [{ id := 1, email := "a@x.com", name := "A",
                  password := .malformed "h", role := "agent",
                  created_at := none }]
               [{ id := 10, title := "T1", description := none,
                  status := some "open", user_id := some 1,
                  created_at := none, updated_at := none },
                { id := 11, title := "T2", description := none,
                  status := some "open", user_id := some 2,
                  created_at := none, updated_at := none }]
               [])
        (Token.signed ⟨"a@x.com", 10⟩ "shh") "shh" 0 =
        Response.ticketsJson L ∧
      ∀ t, t ∈ L ↔ t ∈ [{ id := 10, title := "T1", description := none,
                          status := some "open", user_id := some 1,
                          created_at := none, updated_at := none },
                        { id := 11, title := "T2", description := none,
                          status := some "open", user_id := some 2,
                          created_at := none, updated_at := none }] ∧
        (({ id := 1, email := "a@x.com", name := "A",
            password := .malformed "h", role := "agent",
            created_at := none } : User).role = "admin" ∨
          t.user_id = some 1)) :=
  ⟨by rfl,
   get_tickets_role_filtered
     (Db.mk [{ id := 1, email := "a@x.com", name := "A",
               password := .malformed "h", role := "agent",
               created_at := none }]
            [{ id := 10, title := "T1", description := none,
               status := some "open", user_id := some 1,
               created_at := none, updated_at := none },
             { id := 11, title := "T2", description := none,
               status := some "open", user_id := some 2,
               created_at := none, updated_at := none }]
            [])
     (Token.signed ⟨"a@x.com", 10⟩ "shh") "shh" 0 ⟨"a@x.com", 10⟩
     { id := 1, email := "a@x.com", name := "A",
       password := .malformed "h", role := "agent", created_at := none }
     (by rfl) (by rfl)⟩

/-- C6 (amended): for a permitted update, fields absent from the payload
keep their stored values and fields present are set, in both duplicate
implementations; handlers/ticket.rs refreshes `updated_at` to the current
time, while routes/ticket.rs — the handler mounted at PUT /tickets/{id} —
leaves `updated_at` at its stored value. -/
theorem update_patch_semantics (db : Db) (ticket_id : Int) (bearer : Token)
    (payload : UpdateTicket) (secret : String) (now : Nat)
    (claims : Claims) (user : User) (tk : Ticket)
    (hauth : UtilsJwt.extract_claims bearer secret now = .ok claims)
    (huser : db.findUserByEmail claims.sub = some user)
    (htk : db.findTicketById ticket_id = some tk)
    (hallow : user.role = "admin" ∨ tk.user_id = some user.id) :
    (RoutesTicket.update_ticket_by_id db ticket_id bearer payload secret now).1 =
      Response.ticketJson
        { tk with
            title := payload.title.getD tk.title
            description := match payload.description with
              | some d => some d
              | none => tk.description
            status := match payload.status with
              | some s => some s
              | none => tk.status } ∧
    (HandlersTicket.update_ticket_by_id db ticket_id bearer payload secret now).1 =
      Response.ticketJson
        { tk with
            title := payload.title.getD tk.title
            description := match payload.description with
              | some d => some d
              | none => tk.description
            status := match payload.status with
              | some s => some s
              | none => tk.status
            updated_at := some now } := by
  have hcond : ¬ (user.role ≠ "admin" ∧ tk.user_id ≠ some user.id) := by
    rcases hallow with h | h <;> simp [h]
  obtain ⟨pt, pd, ps⟩ := payload
  constructor
  · cases pt <;> cases pd <;> cases ps <;>
      simp [RoutesTicket.update_ticket_by_id, hauth, huser, htk, hcond]
  · cases pt <;> cases pd <;> cases ps <;>
      simp [HandlersTicket.update_ticket_by_id, hauth, huser, htk, hcond]

/-- Witness for C6's amended statement: the owner updates only the title of
ticket 10; the routes/ handler keeps `updated_at = some 1`, the handlers/
one refreshes it to `some 99`. -/
theorem update_patch_semantics_witness :
    (Db.mk [{ id := 1, email := "a@x.com", name := "A",
              password := .malformed "h", role := "agent",
              created_at := none }]
           [{ id := 10, title := "Old", description := none,
              status := some "open", user_id := some 1,
              created_at := some 0, updated_at := some 1 }]
           []).findTicketById 10 =
      some { id := 10, title := "Old", description := none,
             status := some "open", user_id := some 1,
             created_at := some 0, updated_at := some 1 } ∧
    ((RoutesTicket.update_ticket_by_id
        (Db.mk [{ id := 1, email := "a@x.com", name := "A",
                  password := .malformed "h", role := "agent",
                  created_at := none }]
               [{ id := 10, title := "Old", description := none,
                  status := some "open", user_id := some 1,
                  created_at := some 0, updated_at := some 1 }]
               [])
        10 (Token.signed ⟨"a@x.com", 1000⟩ "shh")
        { title := some "New", description := none, status := none }
        "shh" 99).1 =
      Response.ticketJson
        { id := 10, title := "New", description := none,
          status := some "open", user_id := some 1,
          created_at := some 0, updated_at := some 1 } ∧
    (HandlersTicket.update_ticket_by_id
        (Db.mk [{ id := 1, email := "a@x.com", name := "A",
                  password := .malformed "h", role := "agent",
                  created_at := none }]
               [{ id := 10, title := "Old", description := none,
                  status := some "open", user_id := some 1,
                  created_at := some 0, updated_at := some 1 }]
               [])
        10 (Token.signed ⟨"a@x.com", 1000⟩ "shh")
        { title := some "New", description := none, status := none }
        "shh" 99).1 =
      Response.ticketJson
        { id := 10, title := "New", description := none,
          status := some "open", user_id := some 1,
          created_at := some 0, updated_at := some 99 }) :=
  ⟨by rfl,
   update_patch_semantics
     (Db.mk [{ id := 1, email := "a@x.com", name := "A",
               password := .malformed "h", role := "agent",
               created_at := none }]
            [{ id := 10, title := "Old", description := none,
               status := some "open", user_id := some 1,
               created_at := some 0, updated_at := some 1 }]
            [])
     10 (Token.signed ⟨"a@x.com", 1000⟩ "shh")
     { title := some "New", description := none, status := none }
     "shh" 99 ⟨"a@x.com", 1000⟩
     { id := 1, email := "a@x.com", name := "A",
       password := .malformed "h", role := "agent", created_at := none }
     { id := 10, title := "Old", description := none,
       status := some "open", user_id := some 1,
       created_at := some 0, updated_at := some 1 }
     (by rfl) (by rfl) (by rfl) (Or.inr rfl)⟩

/-- C6 counterexample: a permitted, successful mutation through the handler
mounted at PUT /tickets/{id} (routes/ticket.rs) returns the ticket with its
old `updated_at = some 1` although the current time is 99 — the timestamp
is not refreshed on this mutation, contrary to the claim. -/
theorem routes_update_keeps_stale_updated_at :
    (RoutesTicket.update_ticket_by_id
        (Db.mk [{ id := 1, email := "a@x.com", name := "A",
                  password := .malformed "h", role := "agent",
                  created_at := none }]
               [{ id := 10, title := "Old", description := none,
                  status := some "open", user_id := some 1,
                  created_at := some 0, updated_at := some 1 }]
               [])
        10 (Token.signed ⟨"a@x.com", 1000⟩ "shh")
        { title := some "New", description := none, status := none }
        "shh" 99).1 =
      Response.ticketJson
        { id := 10, title := "New", description := none,
          status := some "open", user_id := some 1,
          created_at := some 0, updated_at := some 1 } ∧
    some (1 : Nat) ≠ some (99 : Nat) := by
  exact ⟨by rfl, by decide⟩

/-- C5 (amended): a successful registration stores the request's role
string verbatim; no validation restricts it to the set containing "agent"
and "admin". -/
theorem register_stores_role_verbatim (db : Db) (payload : RegisterRequest)
    (salt now : Nat) (fresh_id : Int)
    (hfresh : db.users.any (fun u => u.email == payload.email) = false) :
    (register_user db payload salt now fresh_id).1.status = .CREATED ∧
    (register_user db payload salt now fresh_id).2.users =
      db.users ++
        [{ id := fresh_id, email := payload.email, name := payload.name,
           password := .digest (bcrypt_hash payload.password 12 salt),
           role := payload.role, created_at := some now }] := by
  constructor <;> simp [register_user, hfresh]

/-- Witness for C5's amended statement at a concrete request. -/
theorem register_stores_role_verbatim_witness :
    (Db.mk [] [] []).users.any
        (fun u => u.email == ("eve@x.com" : String)) = false ∧
    ((register_user (Db.mk [] [] [])
        ⟨"eve@x.com", "Eve", "pw", "superuser"⟩ 3 0 1).1.status = .CREATED ∧
    (register_user (Db.mk [] [] [])
        ⟨"eve@x.com", "Eve", "pw", "superuser"⟩ 3 0 1).2.users =
      [] ++ [{ id := 1, email := "eve@x.com", name := "Eve",
               password := .digest (bcrypt_hash "pw" 12 3),
               role := "superuser", created_at := some 0 }]) :=
  ⟨by rfl,
   register_stores_role_verbatim (Db.mk [] [] [])
     ⟨"eve@x.com", "Eve", "pw", "superuser"⟩ 3 0 1 (by rfl)⟩

/-- C5 counterexample: a registration whose role is "superuser" succeeds,
and the stored user's role is "superuser", which is neither "agent" nor
"admin" — the claimed invariant does not hold of the code. -/
theorem register_accepts_arbitrary_role :
    (register_user (Db.mk [] [] [])
        ⟨"eve@x.com", "Eve", "pw", "superuser"⟩ 3 0 1).1.status = .CREATED ∧
    (register_user (Db.mk [] [] [])
        ⟨"eve@x.com", "Eve", "pw", "superuser"⟩ 3 0 1).2.users =
      [{ id := 1, email := "eve@x.com", name := "Eve",
         password := .digest (bcrypt_hash "pw" 12 3),
         role := "superuser", created_at := some 0 }] ∧
    ("superuser" : String) ≠ "agent" ∧
    ("superuser" : String) ≠ "admin" := by
  exact ⟨by rfl, by rfl, by decide, by decide⟩

end TagBlaze
